import Mathlib

/-!
Shallow embedding of the build-time orchestration script `src/build.rs` of the
hwtracer repository.

The script is a Cargo build script: it provisions a dependency workspace under
`OUT_DIR`, probes the toolchain for perf_pt support, builds the external
`libxdc` library with `make`, queries the CPU for Intel PT support via
`cpuid`, accumulates a `cc::Build` compilation unit, and emits `cargo:`
directives.

We model the ambient world (environment variables, the target configuration,
the C compiler used for probes, the `make` invocation outcome, and the `cpuid`
instruction) as a record of oracles `BuildEnv`, and the mutable process state
(current working directory, the set of existing filesystem paths, and an
ordered trace of observable effects) as a record `St` threaded explicitly.
Rust `panic!`/`unwrap` failures are modelled by the `BRes.panic` constructor,
which carries the state at the moment of the panic so that properties of the
aborted process (e.g. its working directory) remain observable.
-/

namespace Hwtracer

/-- `FEATURE_CHECKS_PATH` constant from build.rs. -/
def FEATURE_CHECKS_PATH : String := "feature_checks"

/-- `C_DEPS_DIR` constant from build.rs. -/
def C_DEPS_DIR : String := "c_deps"

/-- `C_DEPS_MAKEFILE` constant from build.rs. -/
def C_DEPS_MAKEFILE : String := "c_deps.mk"

/-- Path concatenation, modelling `PathBuf::push` of a relative component. -/
def pathJoin (a b : String) : String := a ++ "/" ++ b

/-- Result of running the external build tool: exit status plus the two
captured output streams (`std::process::Output`). -/
structure ProcOutput where
  success : Bool
  stdout : String
  stderr : String
deriving DecidableEq, Repr

/-- Result registers of the `__cpuid_count` instruction. -/
structure CpuidResult where
  eax : Nat
  ebx : Nat
  ecx : Nat
  edx : Nat
deriving DecidableEq, Repr

/-- Read-only inputs and oracles of one orchestrator run: the `OUT_DIR`
environment variable (`none` models unset or non-unicode), the
`cfg!(all(target_os = "linux", target_arch = "x86_64"))` flag, the host C
compiler used by `cc::Build::try_compile` for probes, the outcome of spawning
`make` (`none` models a spawn failure), and the `__cpuid_count` instruction. -/
structure BuildEnv where
  out_dir : Option String
  target_linux_x86_64 : Bool
  try_compile : String → String → Except String Unit
  make_output : Option ProcOutput
  cpuid_count : Nat → Nat → CpuidResult

/-- One observable effect of the build script on the outside world. -/
inductive Effect where
  | createDir (p : String)
  | symlink (src dest : String)
  | setCwd (p : String)
  | tryCompile (path out : String)
  | spawnMake (recipe : String)
  | cpuid (leaf subleaf : Nat)
  | eprintLn (s : String)
  | printLn (s : String)
  | ccFile (f : String)
  | ccInclude (p : String)
  | ccFlag (f : String)
  | ccCompile (libname : String)
  | rerunExcept (pats : List String)
deriving DecidableEq, Repr

/-- Mutable process state: current working directory, existing filesystem
paths, and the ordered trace of effects performed so far. -/
structure St where
  cwd : String
  fs_exists : List String
  trace : List Effect
deriving DecidableEq, Repr

/-- Append one effect to the trace. -/
def St.emit (st : St) (e : Effect) : St := { st with trace := st.trace ++ [e] }

/-- The `cc::Build` accumulator: source files, include paths and flags, in
the order they were added. -/
structure CcBuild where
  files : List String
  includeDirs : List String
  flags : List String
deriving DecidableEq, Repr

/-- `cc::Build::new()`. -/
def CcBuild.new : CcBuild := ⟨[], [], []⟩

/-- `cc::Build::file`. -/
def CcBuild.file (b : CcBuild) (f : String) : CcBuild :=
  { b with files := b.files ++ [f] }

/-- `cc::Build::include`. -/
def CcBuild.includePath (b : CcBuild) (p : String) : CcBuild :=
  { b with includeDirs := b.includeDirs ++ [p] }

/-- `cc::Build::flag`. -/
def CcBuild.flag (b : CcBuild) (f : String) : CcBuild :=
  { b with flags := b.flags ++ [f] }

/-- Outcome of a fallible step: normal return, or a Rust `panic!`/`unwrap`
abort. The state at the moment of the panic is retained. -/
inductive BRes (α : Type) where
  | ok (st : St) (val : α)
  | panic (st : St) (msg : String)
deriving DecidableEq, Repr

/-- `Result::is_ok` on the probe-compile outcome. -/
def isOk (e : Except String Unit) : Bool :=
  match e with
  | .ok _ => true
  | .error _ => false

/-- `feature_check` from build.rs: builds the path
`FEATURE_CHECKS_PATH/filename`, attempts a throwaway compile of it and
returns `is_ok` of the outcome. -/
def feature_check (env : BuildEnv) (st : St) (filename output_file : String) :
    St × Bool :=
  let path := pathJoin FEATURE_CHECKS_PATH filename
  (st.emit (.tryCompile path output_file),
    isOk (env.try_compile path output_file))

/-- `make_c_deps_dir` from build.rs: reads `OUT_DIR` (panicking if absent),
computes `OUT_DIR/c_deps`; if that path does not exist, creates the directory
and symlinks `cwd/c_deps.mk` into it; returns the path. -/
def make_c_deps_dir (env : BuildEnv) (st : St) : BRes String :=
  match env.out_dir with
  | none => .panic st "OUT_DIR unset: called unwrap on an Err value"
  | some out_dir =>
    let c_deps_dir := pathJoin out_dir C_DEPS_DIR
    if c_deps_dir ∈ st.fs_exists then
      .ok st c_deps_dir
    else
      let st := st.emit (.createDir c_deps_dir)
      let st := { st with fs_exists := c_deps_dir :: st.fs_exists }
      let dest := pathJoin c_deps_dir C_DEPS_MAKEFILE
      let src := pathJoin st.cwd C_DEPS_MAKEFILE
      let st := st.emit (.symlink src dest)
      .ok st c_deps_dir

/-- `build_libxdc` from build.rs: saves the current directory, changes into
`c_deps_dir`, runs `make -f c_deps.mk` capturing output; panics on spawn
failure; on nonzero exit prints both captured streams and panics; on success
restores the saved directory. -/
def build_libxdc (env : BuildEnv) (st : St) (c_deps_dir : String) :
    BRes Unit :=
  let st := st.emit (.eprintLn "Building libxdc...")
  let prev_dir := st.cwd
  let st := { st with cwd := c_deps_dir }.emit (.setCwd c_deps_dir)
  let st := st.emit (.spawnMake C_DEPS_MAKEFILE)
  match env.make_output with
  | none => .panic st "Fatal error when building libxdc"
  | some res =>
    if res.success then
      let st := { st with cwd := prev_dir }.emit (.setCwd prev_dir)
      .ok st ()
    else
      let st := st.emit (.eprintLn "libxdc build failed\n>>> stdout")
      let st := st.emit (.eprintLn ("stdout: " ++ res.stdout))
      let st := st.emit (.eprintLn "\n>>> stderr")
      let st := st.emit (.eprintLn ("stderr: " ++ res.stderr))
      .panic st "explicit panic"

/-- `cpu_supports_pt` from build.rs: executes `__cpuid_count(0x7, 0x0)` and
tests bit 25 of `ebx`. -/
def cpu_supports_pt (env : BuildEnv) (st : St) : St × Bool :=
  let st := st.emit (.cpuid 0x7 0x0)
  let res := env.cpuid_count 0x7 0x0
  (st, (res.ebx &&& (1 <<< 25)) != 0)

/-- The pattern list passed to `rerun_except` at the end of `main`. -/
def rerun_patterns : List String :=
  ["README.md", "deny.toml", "LICENSE-*", "COPYRIGHT", "bors.toml",
    ".buildbot.sh"]

/-- Glob matching on character lists; `*` matches any (possibly empty)
sequence of characters, every other character matches itself. The `fuel`
parameter makes the recursion structural; every recursive call shrinks the
combined length of the two lists, so a fuel of that combined length plus one
never runs out. -/
def globMatchL (fuel : Nat) (ps cs : List Char) : Bool :=
  match fuel, ps, cs with
  | _ + 1, [], [] => true
  | _ + 1, [], _ :: _ => false
  | f + 1, '*' :: ps, [] => globMatchL f ps []
  | f + 1, '*' :: ps, c :: cs =>
      globMatchL f ps (c :: cs) || globMatchL f ('*' :: ps) cs
  | _ + 1, _ :: _, [] => false
  | f + 1, p :: ps, c :: cs => p == c && globMatchL f ps cs
  | 0, _, _ => false

/-- Glob matching on strings. -/
def globMatch (pat s : String) : Bool :=
  globMatchL (pat.length + s.length + 1) pat.toList s.toList

/-- Modelled from the documented semantics of the external `rerun_except`
crate, whose source is not part of this repository: `rerun_except(patterns)`
emits a rebuild trigger (`cargo:rerun-if-changed`) for every project file
that does NOT match one of `patterns`; files matching a pattern are excepted
from triggering rebuilds. Given the file list of the project, this returns the
list of files whose modification triggers a rerun of the build script. -/
def rerun_except_triggers (patterns : List String)
    (projectFiles : List String) : List String :=
  projectFiles.filter (fun f => !(patterns.any (fun p => globMatch p f)))

/-- The unconditional tail of `main` (build.rs lines 100-112): add the
`src/util` include path, compile the accumulated unit as `hwtracer_c`, and
register the `rerun_except` patterns. -/
def main_tail (st : St) (c_build : CcBuild) : BRes CcBuild :=
  let c_build := c_build.includePath "src/util"
  let st := st.emit (.ccInclude "src/util")
  let st := st.emit (.ccCompile "hwtracer_c")
  let st := st.emit (.rerunExcept rerun_patterns)
  .ok st c_build

/-- The backend branch of `main` (build.rs lines 84-98), taken when the
platform gate and the feature probe both succeed: add the three perf_pt
source files, build libxdc, add its include path and `-L` flag, emit the
link-search directive, the `perf_pt` cfg flag, conditionally the
`perf_pt_test` cfg flag, and the two link-lib directives. -/
def backend_steps (env : BuildEnv) (st : St) (c_build : CcBuild)
    (c_deps_dir : String) : BRes CcBuild :=
  let c_build := c_build.file "src/backends/perf_pt/collect.c"
  let st := st.emit (.ccFile "src/backends/perf_pt/collect.c")
  let c_build := c_build.file "src/backends/perf_pt/decode.c"
  let st := st.emit (.ccFile "src/backends/perf_pt/decode.c")
  let c_build := c_build.file "src/backends/perf_pt/util.c"
  let st := st.emit (.ccFile "src/backends/perf_pt/util.c")
  match build_libxdc env st c_deps_dir with
  | .panic st m => .panic st m
  | .ok st _ =>
    let c_build := c_build.includePath (c_deps_dir ++ "/inst/include/")
    let st := st.emit (.ccInclude (c_deps_dir ++ "/inst/include/"))
    let c_build := c_build.flag ("-L" ++ c_deps_dir ++ "/inst/lib")
    let st := st.emit (.ccFlag ("-L" ++ c_deps_dir ++ "/inst/lib"))
    let st := st.emit
      (.printLn ("cargo:rustc-link-search=" ++ c_deps_dir ++ "/inst/lib"))
    let st := st.emit (.printLn "cargo:rustc-cfg=perf_pt")
    let (st, pt) := cpu_supports_pt env st
    let st := if pt then st.emit (.printLn "cargo:rustc-cfg=perf_pt_test")
              else st
    let st := st.emit (.printLn "cargo:rustc-link-lib=static=xdc")
    let st := st.emit (.printLn "cargo:rustc-link-lib=static=capstone")
    .ok st c_build

/-- `main` from build.rs: create the `cc::Build`, provision the workspace,
evaluate the platform gate and (only then) the feature probe, run the backend
steps when both hold, then unconditionally run the tail. On success the value
is the final accumulated `cc::Build`. -/
def main (env : BuildEnv) (st0 : St) : BRes CcBuild :=
  let c_build := CcBuild.new
  match make_c_deps_dir env st0 with
  | .panic st m => .panic st m
  | .ok st c_deps_dir =>
    if env.target_linux_x86_64 then
      let (st, probe) := feature_check env st "check_perf_pt.c" "check_perf_pt"
      if probe then
        match backend_steps env st c_build c_deps_dir with
        | .panic st m => .panic st m
        | .ok st c_build => main_tail st c_build
      else main_tail st c_build
    else main_tail st c_build

/-- The trace of a whole run, also when it panicked. -/
def runTrace (env : BuildEnv) (st0 : St) : List Effect :=
  match main env st0 with
  | .ok st _ => st.trace
  | .panic st _ => st.trace

/-- Whether the run panicked (a Rust panic exits the process nonzero). -/
def runPanicked (env : BuildEnv) (st0 : St) : Bool :=
  match main env st0 with
  | .ok _ _ => false
  | .panic _ _ => true

/-- The final accumulated compilation unit of a successful run. -/
def runBuild? (env : BuildEnv) (st0 : St) : Option CcBuild :=
  match main env st0 with
  | .ok _ b => some b
  | .panic _ _ => none

/-- The state after a `build_libxdc` call, also when it panicked. -/
def blState (env : BuildEnv) (st : St) (c_deps_dir : String) : St :=
  match build_libxdc env st c_deps_dir with
  | .ok st _ => st
  | .panic st _ => st

/-- Whether a `build_libxdc` call panicked. -/
def blPanicked (env : BuildEnv) (st : St) (c_deps_dir : String) : Bool :=
  match build_libxdc env st c_deps_dir with
  | .ok _ _ => false
  | .panic _ _ => true

/-- The state after a `make_c_deps_dir` call, also when it panicked. -/
def mcdSt (env : BuildEnv) (st : St) : St :=
  match make_c_deps_dir env st with
  | .ok st' _ => st'
  | .panic st' _ => st'

/-- A concrete initial state: working directory `/repo`, empty filesystem,
empty trace. -/
def st0A : St := { cwd := "/repo", fs_exists := [], trace := [] }

/-- A concrete happy-path environment: `OUT_DIR` set, linux/x86_64 target,
every probe compile succeeds, `make` succeeds, cpuid reports PT support. -/
def envA : BuildEnv :=
  { out_dir := some "/out"
    target_linux_x86_64 := true
    try_compile := fun _ _ => .ok ()
    make_output := some { success := true, stdout := "", stderr := "" }
    cpuid_count := fun _ _ => { eax := 0, ebx := 1 <<< 25, ecx := 0, edx := 0 } }

/-- Like `envA` but the external `make` invocation exits nonzero. -/
def envMakeFail : BuildEnv :=
  { envA with
    make_output := some ({ success := false, stdout := "mout", stderr := "merr" }) }

/-- Like `envA` but spawning the external `make` fails. -/
def envSpawnFail : BuildEnv := { envA with make_output := none }

/-- Like `envA` but the target is not linux/x86_64. -/
def envOtherTarget : BuildEnv := { envA with target_linux_x86_64 := false }

/-- Like `envA` but every probe compile fails. -/
def envProbeFail : BuildEnv :=
  { envA with try_compile := fun _ _ => .error "compile failed" }

/-- Like `envA` but `OUT_DIR` is unset. -/
def envNoOut : BuildEnv := { envA with out_dir := none }

/-- Whether an effect is the emission of a `cargo:` directive line. -/
def Effect.isPrintLn : Effect → Bool
  | .printLn _ => true
  | _ => false

/-- Whether an effect is a hardware capability query. -/
def Effect.isCpuid : Effect → Bool
  | .cpuid _ _ => true
  | _ => false

/-- Whether an effect adds a source file to the compilation unit. -/
def Effect.isCcFile : Effect → Bool
  | .ccFile _ => true
  | _ => false

/-- Whether an effect adds a compiler flag to the compilation unit. -/
def Effect.isCcFlag : Effect → Bool
  | .ccFlag _ => true
  | _ => false

/-- C5: for every probe name, `feature_check` returns `true` iff compiling
the selected probe source file (`feature_checks/<filename>`) succeeds; every
compile failure is reported as `false` with no diagnostic propagated (the
returned value is a plain boolean); the function is total, so it never
raises. -/
theorem feature_check_true_iff_compile_ok (env : BuildEnv) (st : St)
    (filename output_file : String) :
    ((feature_check env st filename output_file).2 = true ↔
      ∃ u, env.try_compile (pathJoin FEATURE_CHECKS_PATH filename) output_file
        = Except.ok u) ∧
    ((feature_check env st filename output_file).2 = false ↔
      ∃ e, env.try_compile (pathJoin FEATURE_CHECKS_PATH filename) output_file
        = Except.error e) ∧
    (feature_check env st filename output_file).1.trace = st.trace ++
      [.tryCompile (pathJoin FEATURE_CHECKS_PATH filename) output_file] := by
  refine ⟨?_, ?_, rfl⟩ <;>
  · simp only [feature_check, isOk]
    cases env.try_compile (pathJoin FEATURE_CHECKS_PATH filename) output_file
      <;> simp

/-- Witness for C5 at concrete environments: a succeeding probe compile
yields `true`, a failing one yields `false`. -/
theorem feature_check_true_iff_compile_ok_witness :
    (feature_check envA st0A "check_perf_pt.c" "check_perf_pt").2 = true ∧
    (feature_check envProbeFail st0A "check_perf_pt.c" "check_perf_pt").2
      = false :=
  ⟨(feature_check_true_iff_compile_ok envA st0A "check_perf_pt.c"
      "check_perf_pt").1.2 ⟨(), rfl⟩,
   (feature_check_true_iff_compile_ok envProbeFail st0A "check_perf_pt.c"
      "check_perf_pt").2.1.2 ⟨"compile failed", rfl⟩⟩

/-- C8: `cpu_supports_pt` queries exactly the instruction leaf `0x7`,
subleaf `0x0`, and returns `true` iff bit 25 of the `ebx` result register is
set. -/
theorem cpu_supports_pt_bit25 (env : BuildEnv) (st : St) :
    (cpu_supports_pt env st).1.trace = st.trace ++ [.cpuid 0x7 0x0] ∧
    ((cpu_supports_pt env st).2 = true ↔
      Nat.testBit (env.cpuid_count 0x7 0x0).ebx 25 = true) := by
  refine ⟨rfl, ?_⟩
  simp only [cpu_supports_pt, Nat.one_shiftLeft, Nat.and_two_pow]
  cases Nat.testBit (env.cpuid_count 0x7 0x0).ebx 25 <;> simp

/-- Witness for C8 at concrete cpuid results: with bit 25 of `ebx` set the
function returns `true`; with it cleared it returns `false`. -/
theorem cpu_supports_pt_bit25_witness :
    (cpu_supports_pt envA st0A).2 = true ∧
    (cpu_supports_pt
      { envA with cpuid_count := fun _ _ =>
          ({ eax := 0, ebx := 0, ecx := 0, edx := 0 }) } st0A).2 = false := by
  constructor
  · exact (cpu_supports_pt_bit25 envA st0A).2.2 (by decide)
  · have h := (cpu_supports_pt_bit25
      { envA with cpuid_count := fun _ _ =>
          ({ eax := 0, ebx := 0, ecx := 0, edx := 0 }) } st0A).2
    cases hb : (cpu_supports_pt
      { envA with cpuid_count := fun _ _ =>
          ({ eax := 0, ebx := 0, ecx := 0, edx := 0 }) } st0A).2
    · rfl
    · exact absurd (h.1 hb) (by decide)

end Hwtracer

namespace Hwtracer

/-- C6: `make_c_deps_dir` is idempotent. When `OUT_DIR` is set, a call
succeeds and returns `OUT_DIR/c_deps`; a second call against the same base
directory succeeds, returns the same path and leaves the state entirely
unchanged (no directory or symlink creation); if the path already exists the
first call also changes nothing (existence alone is the check); otherwise the
first call performs exactly the directory creation and the symlink. -/
theorem make_c_deps_dir_idempotent (env : BuildEnv) (o : String) (st : St)
    (h : env.out_dir = some o) :
    make_c_deps_dir env st = .ok (mcdSt env st) (pathJoin o C_DEPS_DIR) ∧
    make_c_deps_dir env (mcdSt env st)
      = .ok (mcdSt env st) (pathJoin o C_DEPS_DIR) ∧
    (pathJoin o C_DEPS_DIR ∈ st.fs_exists → mcdSt env st = st) ∧
    (pathJoin o C_DEPS_DIR ∉ st.fs_exists →
      (mcdSt env st).trace = st.trace ++
        [.createDir (pathJoin o C_DEPS_DIR),
         .symlink (pathJoin st.cwd C_DEPS_MAKEFILE)
           (pathJoin (pathJoin o C_DEPS_DIR) C_DEPS_MAKEFILE)] ∧
      (mcdSt env st).fs_exists = pathJoin o C_DEPS_DIR :: st.fs_exists ∧
      (mcdSt env st).cwd = st.cwd) := by
  by_cases hm : pathJoin o C_DEPS_DIR ∈ st.fs_exists
  · have h1 : make_c_deps_dir env st = .ok st (pathJoin o C_DEPS_DIR) := by
      simp [make_c_deps_dir, h, hm]
    have hst : mcdSt env st = st := by simp [mcdSt, h1]
    rw [hst]
    exact ⟨h1, h1, fun _ => rfl, fun hn => absurd hm hn⟩
  · have h1 : make_c_deps_dir env st
        = .ok ({ cwd := st.cwd,
                 fs_exists := pathJoin o C_DEPS_DIR :: st.fs_exists,
                 trace := st.trace ++
                   [.createDir (pathJoin o C_DEPS_DIR),
                    .symlink (pathJoin st.cwd C_DEPS_MAKEFILE)
                      (pathJoin (pathJoin o C_DEPS_DIR) C_DEPS_MAKEFILE)] })
            (pathJoin o C_DEPS_DIR) := by
      simp [make_c_deps_dir, h, hm, St.emit]
    have hst : mcdSt env st
        = { cwd := st.cwd,
            fs_exists := pathJoin o C_DEPS_DIR :: st.fs_exists,
            trace := st.trace ++
              [.createDir (pathJoin o C_DEPS_DIR),
               .symlink (pathJoin st.cwd C_DEPS_MAKEFILE)
                 (pathJoin (pathJoin o C_DEPS_DIR) C_DEPS_MAKEFILE)] } := by
      simp [mcdSt, h1]
    rw [hst]
    refine ⟨h1, ?_, fun hc => absurd hc hm, fun _ => ⟨rfl, rfl, rfl⟩⟩
    simp [make_c_deps_dir, h]

/-- Witness for C6: on the concrete happy-path environment the first call
creates the workspace and the second call is a no-op returning the same
path. -/
theorem make_c_deps_dir_idempotent_witness :
    make_c_deps_dir envA st0A = .ok (mcdSt envA st0A) (pathJoin "/out" C_DEPS_DIR) ∧
    make_c_deps_dir envA (mcdSt envA st0A)
      = .ok (mcdSt envA st0A) (pathJoin "/out" C_DEPS_DIR) ∧
    (mcdSt envA st0A).trace = st0A.trace ++
      [.createDir (pathJoin "/out" C_DEPS_DIR),
       .symlink (pathJoin st0A.cwd C_DEPS_MAKEFILE)
         (pathJoin (pathJoin "/out" C_DEPS_DIR) C_DEPS_MAKEFILE)] := by
  obtain ⟨h1, h2, -, h4⟩ := make_c_deps_dir_idempotent envA "/out" st0A rfl
  exact ⟨h1, h2, (h4 (by decide)).1⟩

/-- C10: when the environment variable `OUT_DIR` is unset (or not valid
unicode), the run aborts fatally inside `make_c_deps_dir` before any
filesystem operation: the state (trace, filesystem, working directory) at
the panic is exactly the initial state, and so is the whole run trace as well. -/
theorem out_dir_unset_fatal (env : BuildEnv) (st : St)
    (h : env.out_dir = none) :
    (∃ msg, make_c_deps_dir env st = .panic st msg) ∧
    runPanicked env st = true ∧
    runTrace env st = st.trace := by
  have h1 : make_c_deps_dir env st
      = .panic st "OUT_DIR unset: called unwrap on an Err value" := by
    simp [make_c_deps_dir, h]
  refine ⟨⟨_, h1⟩, ?_, ?_⟩ <;> simp [runPanicked, runTrace, main, h1]

/-- Witness for C10 at the concrete environment with `OUT_DIR` unset. -/
theorem out_dir_unset_fatal_witness :
    runPanicked envNoOut st0A = true ∧ runTrace envNoOut st0A = [] :=
  ⟨(out_dir_unset_fatal envNoOut st0A rfl).2.1,
   (out_dir_unset_fatal envNoOut st0A rfl).2.2⟩

end Hwtracer

namespace Hwtracer

/-- Counterexample to C1 as stated: on a concrete invocation where the build
tool exits nonzero, `build_libxdc` panics with the working directory still
set to the workspace directory, not the one observed before the call. -/
theorem build_libxdc_cwd_not_restored_on_failure :
    st0A.cwd = "/repo" ∧
    blPanicked envMakeFail st0A "/out/c_deps" = true ∧
    (blState envMakeFail st0A "/out/c_deps").cwd = "/out/c_deps" := by
  decide

/-- C1 amended: `build_libxdc` restores the prior working directory on the
successful exit path only; when the build tool exits nonzero, and when it
cannot be spawned, the call panics with the working directory left at the
workspace path (no restoration before the abort). -/
theorem build_libxdc_cwd_restoration (env : BuildEnv) (st : St)
    (dir : String) :
    (∀ res, env.make_output = some res → res.success = true →
      blPanicked env st dir = false ∧ (blState env st dir).cwd = st.cwd) ∧
    (env.make_output = none →
      blPanicked env st dir = true ∧ (blState env st dir).cwd = dir) ∧
    (∀ res, env.make_output = some res → res.success = false →
      blPanicked env st dir = true ∧ (blState env st dir).cwd = dir) := by
  refine ⟨fun res hres hs => ⟨?_, ?_⟩, fun hres => ⟨?_, ?_⟩,
    fun res hres hs => ⟨?_, ?_⟩⟩ <;>
    simp only [blPanicked, blState, build_libxdc, St.emit, hres] <;>
    simp [hs]

/-- Witness for C1 amended: concrete success and spawn-failure invocations
showing restoration and non-restoration respectively. -/
theorem build_libxdc_cwd_restoration_witness :
    (blPanicked envA st0A "/out/c_deps" = false ∧
      (blState envA st0A "/out/c_deps").cwd = st0A.cwd) ∧
    (blPanicked envSpawnFail st0A "/out/c_deps" = true ∧
      (blState envSpawnFail st0A "/out/c_deps").cwd = "/out/c_deps") :=
  ⟨(build_libxdc_cwd_restoration envA st0A "/out/c_deps").1
      { success := true, stdout := "", stderr := "" } rfl rfl,
   (build_libxdc_cwd_restoration envSpawnFail st0A "/out/c_deps").2.1 rfl⟩

end Hwtracer

namespace Hwtracer

/-- When `OUT_DIR` is set, `make_c_deps_dir` succeeds, returns
`OUT_DIR/c_deps`, and preserves the working directory. -/
theorem mcd_ok_eq (env : BuildEnv) (o : String) (st : St)
    (h : env.out_dir = some o) :
    make_c_deps_dir env st = .ok (mcdSt env st) (pathJoin o C_DEPS_DIR) ∧
    (mcdSt env st).cwd = st.cwd := by
  by_cases hm : pathJoin o C_DEPS_DIR ∈ st.fs_exists <;>
    simp [make_c_deps_dir, mcdSt, h, hm, St.emit]

/-- The trace after `make_c_deps_dir` either is unchanged or gains exactly
the directory creation and the symlink. -/
theorem mcd_trace_cases (env : BuildEnv) (o : String) (st : St)
    (h : env.out_dir = some o) :
    (mcdSt env st).trace = st.trace ∨
    (mcdSt env st).trace = st.trace ++
      [.createDir (pathJoin o C_DEPS_DIR),
       .symlink (pathJoin st.cwd C_DEPS_MAKEFILE)
         (pathJoin (pathJoin o C_DEPS_DIR) C_DEPS_MAKEFILE)] := by
  by_cases hm : pathJoin o C_DEPS_DIR ∈ st.fs_exists
  · left; simp [mcdSt, make_c_deps_dir, h, hm]
  · right; simp [mcdSt, make_c_deps_dir, h, hm, St.emit]

/-- Characterization of a full run when the platform gate is false. -/
theorem main_gateFalse_eq (env : BuildEnv) (st0 : St) (o : String)
    (hout : env.out_dir = some o)
    (hgate : env.target_linux_x86_64 = false) :
    main env st0 = .ok
      ({ cwd := st0.cwd,
         fs_exists := (mcdSt env st0).fs_exists,
         trace := (mcdSt env st0).trace ++
           [.ccInclude "src/util", .ccCompile "hwtracer_c",
            .rerunExcept rerun_patterns] })
      ({ files := [], includeDirs := ["src/util"], flags := [] }) := by
  obtain ⟨hmcd, hcwd⟩ := mcd_ok_eq env o st0 hout
  simp [main, hmcd, hgate, main_tail, St.emit, CcBuild.new,
    CcBuild.includePath, hcwd]

/-- Characterization of a full run when the gate holds but the feature
probe fails. -/
theorem main_probeFail_eq (env : BuildEnv) (st0 : St) (o : String)
    (hout : env.out_dir = some o)
    (hgate : env.target_linux_x86_64 = true)
    (hprobe : isOk (env.try_compile
      (pathJoin FEATURE_CHECKS_PATH "check_perf_pt.c") "check_perf_pt")
      = false) :
    main env st0 = .ok
      ({ cwd := st0.cwd,
         fs_exists := (mcdSt env st0).fs_exists,
         trace := (mcdSt env st0).trace ++
           [.tryCompile (pathJoin FEATURE_CHECKS_PATH "check_perf_pt.c")
              "check_perf_pt",
            .ccInclude "src/util", .ccCompile "hwtracer_c",
            .rerunExcept rerun_patterns] })
      ({ files := [], includeDirs := ["src/util"], flags := [] }) := by
  obtain ⟨hmcd, hcwd⟩ := mcd_ok_eq env o st0 hout
  simp [main, hmcd, hgate, feature_check, hprobe, main_tail, St.emit,
    CcBuild.new, CcBuild.includePath, hcwd]

/-- Characterization of a full run on the backend path with a successful
external build. -/
theorem main_backend_eq (env : BuildEnv) (st0 : St) (o : String)
    (r : ProcOutput)
    (hout : env.out_dir = some o)
    (hgate : env.target_linux_x86_64 = true)
    (hprobe : isOk (env.try_compile
      (pathJoin FEATURE_CHECKS_PATH "check_perf_pt.c") "check_perf_pt")
      = true)
    (hmake : env.make_output = some r)
    (hsucc : r.success = true) :
    main env st0 = .ok
      ({ cwd := st0.cwd,
         fs_exists := (mcdSt env st0).fs_exists,
         trace := (mcdSt env st0).trace ++
           ([.tryCompile (pathJoin FEATURE_CHECKS_PATH "check_perf_pt.c")
               "check_perf_pt",
             .ccFile "src/backends/perf_pt/collect.c",
             .ccFile "src/backends/perf_pt/decode.c",
             .ccFile "src/backends/perf_pt/util.c",
             .eprintLn "Building libxdc...",
             .setCwd (pathJoin o C_DEPS_DIR),
             .spawnMake C_DEPS_MAKEFILE,
             .setCwd st0.cwd,
             .ccInclude (pathJoin o C_DEPS_DIR ++ "/inst/include/"),
             .ccFlag ("-L" ++ pathJoin o C_DEPS_DIR ++ "/inst/lib"),
             .printLn ("cargo:rustc-link-search="
               ++ pathJoin o C_DEPS_DIR ++ "/inst/lib"),
             .printLn "cargo:rustc-cfg=perf_pt",
             .cpuid 0x7 0x0] ++
            (if ((env.cpuid_count 0x7 0x0).ebx &&& (1 <<< 25)) != 0 then
              [Effect.printLn "cargo:rustc-cfg=perf_pt_test"] else []) ++
            [.printLn "cargo:rustc-link-lib=static=xdc",
             .printLn "cargo:rustc-link-lib=static=capstone",
             .ccInclude "src/util", .ccCompile "hwtracer_c",
             .rerunExcept rerun_patterns]) })
      ({ files := ["src/backends/perf_pt/collect.c",
                   "src/backends/perf_pt/decode.c",
                   "src/backends/perf_pt/util.c"],
         includeDirs := [pathJoin o C_DEPS_DIR ++ "/inst/include/",
                         "src/util"],
         flags := ["-L" ++ pathJoin o C_DEPS_DIR ++ "/inst/lib"] }) := by
  obtain ⟨hmcd, hcwd⟩ := mcd_ok_eq env o st0 hout
  by_cases hpt : (env.cpuid_count 0x7 0x0).ebx &&& 33554432 = 0 <;>
    simp [main, hmcd, hgate, feature_check, hprobe, backend_steps,
      build_libxdc, hmake, hsucc, cpu_supports_pt, hpt, main_tail, St.emit,
      CcBuild.new, CcBuild.file, CcBuild.includePath, CcBuild.flag, hcwd]

/-- Characterization of a full run on the backend path when the external
build tool exits nonzero: the run panics after echoing both captured
streams, with no compile step. -/
theorem main_makeFail_eq (env : BuildEnv) (st0 : St) (o : String)
    (r : ProcOutput)
    (hout : env.out_dir = some o)
    (hgate : env.target_linux_x86_64 = true)
    (hprobe : isOk (env.try_compile
      (pathJoin FEATURE_CHECKS_PATH "check_perf_pt.c") "check_perf_pt")
      = true)
    (hmake : env.make_output = some r)
    (hfail : r.success = false) :
    main env st0 = .panic
      ({ cwd := pathJoin o C_DEPS_DIR,
         fs_exists := (mcdSt env st0).fs_exists,
         trace := (mcdSt env st0).trace ++
           [.tryCompile (pathJoin FEATURE_CHECKS_PATH "check_perf_pt.c")
              "check_perf_pt",
            .ccFile "src/backends/perf_pt/collect.c",
            .ccFile "src/backends/perf_pt/decode.c",
            .ccFile "src/backends/perf_pt/util.c",
            .eprintLn "Building libxdc...",
            .setCwd (pathJoin o C_DEPS_DIR),
            .spawnMake C_DEPS_MAKEFILE,
            .eprintLn "libxdc build failed\n>>> stdout",
            .eprintLn ("stdout: " ++ r.stdout),
            .eprintLn "\n>>> stderr",
            .eprintLn ("stderr: " ++ r.stderr)] })
      "explicit panic" := by
  obtain ⟨hmcd, hcwd⟩ := mcd_ok_eq env o st0 hout
  simp [main, hmcd, hgate, feature_check, hprobe, backend_steps,
    build_libxdc, hmake, hfail, St.emit, CcBuild.new, CcBuild.file, hcwd]

end Hwtracer

namespace Hwtracer

/-- Characterization of a full run on the backend path when the external
build tool cannot be spawned: the run panics right after the spawn attempt. -/
theorem main_spawnFail_eq (env : BuildEnv) (st0 : St) (o : String)
    (hout : env.out_dir = some o)
    (hgate : env.target_linux_x86_64 = true)
    (hprobe : isOk (env.try_compile
      (pathJoin FEATURE_CHECKS_PATH "check_perf_pt.c") "check_perf_pt")
      = true)
    (hmake : env.make_output = none) :
    main env st0 = .panic
      ({ cwd := pathJoin o C_DEPS_DIR,
         fs_exists := (mcdSt env st0).fs_exists,
         trace := (mcdSt env st0).trace ++
           [.tryCompile (pathJoin FEATURE_CHECKS_PATH "check_perf_pt.c")
              "check_perf_pt",
            .ccFile "src/backends/perf_pt/collect.c",
            .ccFile "src/backends/perf_pt/decode.c",
            .ccFile "src/backends/perf_pt/util.c",
            .eprintLn "Building libxdc...",
            .setCwd (pathJoin o C_DEPS_DIR),
            .spawnMake C_DEPS_MAKEFILE] })
      "Fatal error when building libxdc" := by
  obtain ⟨hmcd, hcwd⟩ := mcd_ok_eq env o st0 hout
  simp [main, hmcd, hgate, feature_check, hprobe, backend_steps,
    build_libxdc, hmake, St.emit, CcBuild.new, CcBuild.file, hcwd]

/-- The length of the emitted link-search directive text is 40 plus the
length of the output base path. -/
theorem linkSearch_len (o : String) :
    ("cargo:rustc-link-search=" ++ pathJoin o C_DEPS_DIR
      ++ "/inst/lib").length = o.length + 40 := by
  have h1 : ("cargo:rustc-link-search=" : String).length = 24 := rfl
  have h2 : ("/" : String).length = 1 := rfl
  have h3 : (C_DEPS_DIR : String).length = 6 := rfl
  have h4 : ("/inst/lib" : String).length = 9 := rfl
  simp [pathJoin, String.length_append, h1, h2, h3, h4]
  omega

/-- The link-search directive text never coincides with a string shorter
than 40 characters, whatever the output base path is. -/
theorem linkSearch_ne_fixed (o t : String) (ht : t.length < 40) :
    ¬("cargo:rustc-link-search=" ++ pathJoin o C_DEPS_DIR
      ++ "/inst/lib" = t) := by
  intro he
  have hlen := congrArg String.length he
  rw [linkSearch_len] at hlen
  omega

end Hwtracer

namespace Hwtracer

/-- C3: when the target is linux/x86_64, the backend feature probe succeeds
and the external build succeeds, the orchestrator compiles exactly the three
perf_pt backend source files into the single base compilation unit
(`hwtracer_c`, compiled exactly once), and emits the link-search directive,
the two link-lib directives and the `perf_pt` conditional-compile flag each
exactly once. -/
theorem backend_run_directives (env : BuildEnv) (st0 : St) (o : String)
    (r : ProcOutput)
    (hout : env.out_dir = some o)
    (htr : st0.trace = [])
    (hgate : env.target_linux_x86_64 = true)
    (hprobe : isOk (env.try_compile
      (pathJoin FEATURE_CHECKS_PATH "check_perf_pt.c") "check_perf_pt")
      = true)
    (hmake : env.make_output = some r)
    (hsucc : r.success = true) :
    runPanicked env st0 = false ∧
    runBuild? env st0 = some
      ({ files := ["src/backends/perf_pt/collect.c",
                   "src/backends/perf_pt/decode.c",
                   "src/backends/perf_pt/util.c"],
         includeDirs := [pathJoin o C_DEPS_DIR ++ "/inst/include/",
                         "src/util"],
         flags := ["-L" ++ pathJoin o C_DEPS_DIR ++ "/inst/lib"] }) ∧
    (runTrace env st0).count
      (.printLn ("cargo:rustc-link-search="
        ++ pathJoin o C_DEPS_DIR ++ "/inst/lib")) = 1 ∧
    (runTrace env st0).count (.printLn "cargo:rustc-cfg=perf_pt") = 1 ∧
    (runTrace env st0).count (.printLn "cargo:rustc-link-lib=static=xdc")
      = 1 ∧
    (runTrace env st0).count
      (.printLn "cargo:rustc-link-lib=static=capstone") = 1 ∧
    (runTrace env st0).count (.ccCompile "hwtracer_c") = 1 := by
  have hmain := main_backend_eq env st0 o r hout hgate hprobe hmake hsucc
  have hn1 := linkSearch_ne_fixed o "cargo:rustc-cfg=perf_pt" (by decide)
  have hn2 := linkSearch_ne_fixed o "cargo:rustc-cfg=perf_pt_test" (by decide)
  have hn3 := linkSearch_ne_fixed o "cargo:rustc-link-lib=static=xdc"
    (by decide)
  have hn4 := linkSearch_ne_fixed o "cargo:rustc-link-lib=static=capstone"
    (by decide)
  have hn1' : ¬("cargo:rustc-cfg=perf_pt" = "cargo:rustc-link-search="
      ++ pathJoin o C_DEPS_DIR ++ "/inst/lib") := fun h => hn1 h.symm
  have hn2' : ¬("cargo:rustc-cfg=perf_pt_test" = "cargo:rustc-link-search="
      ++ pathJoin o C_DEPS_DIR ++ "/inst/lib") := fun h => hn2 h.symm
  have hn3' : ¬("cargo:rustc-link-lib=static=xdc" = "cargo:rustc-link-search="
      ++ pathJoin o C_DEPS_DIR ++ "/inst/lib") := fun h => hn3 h.symm
  have hn4' : ¬("cargo:rustc-link-lib=static=capstone"
      = "cargo:rustc-link-search=" ++ pathJoin o C_DEPS_DIR ++ "/inst/lib") :=
    fun h => hn4 h.symm
  refine ⟨by simp [runPanicked, hmain], by simp [runBuild?, hmain],
    ?_, ?_, ?_, ?_, ?_⟩ <;>
  · simp only [runTrace, hmain]
    rcases mcd_trace_cases env o st0 hout with h | h <;>
      (rw [h, htr]
       by_cases hpt : (env.cpuid_count 0x7 0x0).ebx &&& 33554432 = 0 <;>
         (simp only [Nat.reduceShiftLeft, bne_iff_ne, ne_eq, hpt,
            not_true_eq_false, not_false_eq_true, if_true, if_false,
            ite_true, ite_false]
          simp only [List.count_append, List.count_cons, List.count_nil,
            List.nil_append]
          simp [beq_iff_eq, hn1, hn2, hn3, hn4, hn1', hn2', hn3', hn4']))

end Hwtracer

namespace Hwtracer

/-- Witness for C3: the concrete happy-path run compiles exactly the three
backend files and emits each directive exactly once. -/
theorem backend_run_directives_witness :
    runPanicked envA st0A = false ∧
    runBuild? envA st0A = some
      ({ files := ["src/backends/perf_pt/collect.c",
                   "src/backends/perf_pt/decode.c",
                   "src/backends/perf_pt/util.c"],
         includeDirs := [pathJoin "/out" C_DEPS_DIR ++ "/inst/include/",
                         "src/util"],
         flags := ["-L" ++ pathJoin "/out" C_DEPS_DIR ++ "/inst/lib"] }) ∧
    (runTrace envA st0A).count
      (.printLn ("cargo:rustc-link-search="
        ++ pathJoin "/out" C_DEPS_DIR ++ "/inst/lib")) = 1 ∧
    (runTrace envA st0A).count (.printLn "cargo:rustc-cfg=perf_pt") = 1 ∧
    (runTrace envA st0A).count (.printLn "cargo:rustc-link-lib=static=xdc")
      = 1 ∧
    (runTrace envA st0A).count
      (.printLn "cargo:rustc-link-lib=static=capstone") = 1 ∧
    (runTrace envA st0A).count (.ccCompile "hwtracer_c") = 1 :=
  backend_run_directives envA st0A "/out"
    ({ success := true, stdout := "", stderr := "" })
    rfl rfl rfl rfl rfl rfl

end Hwtracer

namespace Hwtracer

/-- C4: when the platform gate fails (target not linux/x86_64) or the
backend feature probe fails, the run adds no backend source files to the
compilation unit, emits no `cargo:` directive, no compiler flag, never
invokes the CPU capability query, and compiles only the base static library
(`hwtracer_c`, exactly once, from an empty file list). -/
theorem no_backend_run (env : BuildEnv) (st0 : St) (o : String)
    (hout : env.out_dir = some o)
    (htr : st0.trace = [])
    (hoff : env.target_linux_x86_64 = false ∨
      isOk (env.try_compile
        (pathJoin FEATURE_CHECKS_PATH "check_perf_pt.c") "check_perf_pt")
        = false) :
    runPanicked env st0 = false ∧
    runBuild? env st0 = some
      ({ files := [], includeDirs := ["src/util"], flags := [] }) ∧
    (runTrace env st0).all
      (fun e => !(e.isPrintLn || e.isCpuid || e.isCcFile || e.isCcFlag))
      = true ∧
    (runTrace env st0).count (.ccCompile "hwtracer_c") = 1 := by
  have hmain : main env st0 = .ok
      ({ cwd := st0.cwd,
         fs_exists := (mcdSt env st0).fs_exists,
         trace := (mcdSt env st0).trace ++
           ((if env.target_linux_x86_64 then
              [Effect.tryCompile (pathJoin FEATURE_CHECKS_PATH
                "check_perf_pt.c") "check_perf_pt"] else []) ++
            [.ccInclude "src/util", .ccCompile "hwtracer_c",
             .rerunExcept rerun_patterns]) })
      ({ files := [], includeDirs := ["src/util"], flags := [] }) := by
    rcases hoff with hg | hp
    · rw [main_gateFalse_eq env st0 o hout hg, hg]
      simp
    · by_cases hg : env.target_linux_x86_64
      · rw [main_probeFail_eq env st0 o hout hg hp, hg]
        simp
      · rw [main_gateFalse_eq env st0 o hout (by simpa using hg)]
        simp [hg]
  refine ⟨by simp [runPanicked, hmain], by simp [runBuild?, hmain], ?_, ?_⟩
    <;>
  · simp only [runTrace, hmain]
    rcases mcd_trace_cases env o st0 hout with h | h <;>
      (rw [h, htr]
       by_cases hg : env.target_linux_x86_64 <;>
         simp [hg, List.count_cons, List.count_append, List.count_nil,
           Effect.isPrintLn, Effect.isCpuid, Effect.isCcFile,
           Effect.isCcFlag])

/-- Witness for C4: the concrete non-linux/x86_64 run produces only the base
library with no directives. -/
theorem no_backend_run_witness :
    runPanicked envOtherTarget st0A = false ∧
    runBuild? envOtherTarget st0A = some
      ({ files := [], includeDirs := ["src/util"], flags := [] }) ∧
    (runTrace envOtherTarget st0A).all
      (fun e => !(e.isPrintLn || e.isCpuid || e.isCcFile || e.isCcFlag))
      = true ∧
    (runTrace envOtherTarget st0A).count (.ccCompile "hwtracer_c") = 1 :=
  no_backend_run envOtherTarget st0A "/out" rfl rfl (Or.inl rfl)

end Hwtracer

namespace Hwtracer

/-- C7: when the external build tool exits nonzero, the run prints both
captured streams with their section labels and panics (terminating the
process with nonzero status); the final static-library compile step never
runs. -/
theorem make_fail_aborts (env : BuildEnv) (st0 : St) (o : String)
    (r : ProcOutput)
    (hout : env.out_dir = some o)
    (htr : st0.trace = [])
    (hgate : env.target_linux_x86_64 = true)
    (hprobe : isOk (env.try_compile
      (pathJoin FEATURE_CHECKS_PATH "check_perf_pt.c") "check_perf_pt")
      = true)
    (hmake : env.make_output = some r)
    (hfail : r.success = false) :
    runPanicked env st0 = true ∧
    .eprintLn "libxdc build failed\n>>> stdout" ∈ runTrace env st0 ∧
    .eprintLn ("stdout: " ++ r.stdout) ∈ runTrace env st0 ∧
    .eprintLn "\n>>> stderr" ∈ runTrace env st0 ∧
    .eprintLn ("stderr: " ++ r.stderr) ∈ runTrace env st0 ∧
    (runTrace env st0).count (.ccCompile "hwtracer_c") = 0 := by
  have hmain := main_makeFail_eq env st0 o r hout hgate hprobe hmake hfail
  refine ⟨by simp [runPanicked, hmain], ?_, ?_, ?_, ?_, ?_⟩ <;>
  · simp only [runTrace, hmain]
    rcases mcd_trace_cases env o st0 hout with h | h <;>
      (rw [h, htr]
       simp [List.count_cons, List.count_append, List.count_nil])

/-- Witness for C7: the concrete failing-make run panics, echoes both
streams, and never compiles the base library. -/
theorem make_fail_aborts_witness :
    runPanicked envMakeFail st0A = true ∧
    .eprintLn "libxdc build failed\n>>> stdout" ∈ runTrace envMakeFail st0A ∧
    .eprintLn ("stdout: " ++ "mout") ∈ runTrace envMakeFail st0A ∧
    .eprintLn "\n>>> stderr" ∈ runTrace envMakeFail st0A ∧
    .eprintLn ("stderr: " ++ "merr") ∈ runTrace envMakeFail st0A ∧
    (runTrace envMakeFail st0A).count (.ccCompile "hwtracer_c") = 0 :=
  make_fail_aborts envMakeFail st0A "/out"
    ({ success := false, stdout := "mout", stderr := "merr" })
    rfl rfl rfl rfl rfl rfl

end Hwtracer

namespace Hwtracer

/-- Counterexample to C9 as stated: in a concrete run the workspace
provisioning (directory creation) and the platform-gate feature probe both
happen strictly before the default utility include path `src/util` is added
to the compilation unit, so that addition is not step 1. -/
theorem src_util_include_not_first :
    .createDir "/out/c_deps" ∈ runTrace envA st0A ∧
    .tryCompile "feature_checks/check_perf_pt.c" "check_perf_pt"
      ∈ runTrace envA st0A ∧
    .ccInclude "src/util" ∈ runTrace envA st0A ∧
    (runTrace envA st0A).indexOf (.createDir "/out/c_deps")
      < (runTrace envA st0A).indexOf (.ccInclude "src/util") ∧
    (runTrace envA st0A).indexOf
        (.tryCompile "feature_checks/check_perf_pt.c" "check_perf_pt")
      < (runTrace envA st0A).indexOf (.ccInclude "src/util") := by
  decide

/-- The trace of every non-panicking run ends with exactly the `src/util`
include, the final compile and the rebuild-trigger registration. -/
theorem run_trace_tail (env : BuildEnv) (st0 : St)
    (h : runPanicked env st0 = false) :
    ∃ pre, runTrace env st0 = pre ++
      [.ccInclude "src/util", .ccCompile "hwtracer_c",
       .rerunExcept rerun_patterns] := by
  cases hout : env.out_dir with
  | none =>
    exfalso
    simp [runPanicked, main, make_c_deps_dir, hout] at h
  | some o =>
    by_cases hgate : env.target_linux_x86_64
    · cases hp : isOk (env.try_compile
        (pathJoin FEATURE_CHECKS_PATH "check_perf_pt.c") "check_perf_pt") with
      | false =>
        refine ⟨(mcdSt env st0).trace ++
          [.tryCompile (pathJoin FEATURE_CHECKS_PATH "check_perf_pt.c")
            "check_perf_pt"], ?_⟩
        simp [runTrace, main_probeFail_eq env st0 o hout hgate hp]
      | true =>
        cases hmk : env.make_output with
        | none =>
          exfalso
          simp [runPanicked,
            main_spawnFail_eq env st0 o hout hgate hp hmk] at h
        | some r =>
          cases hs : r.success with
          | false =>
            exfalso
            simp [runPanicked,
              main_makeFail_eq env st0 o r hout hgate hp hmk hs] at h
          | true =>
            refine ⟨(mcdSt env st0).trace ++
              ([.tryCompile (pathJoin FEATURE_CHECKS_PATH "check_perf_pt.c")
                  "check_perf_pt",
                .ccFile "src/backends/perf_pt/collect.c",
                .ccFile "src/backends/perf_pt/decode.c",
                .ccFile "src/backends/perf_pt/util.c",
                .eprintLn "Building libxdc...",
                .setCwd (pathJoin o C_DEPS_DIR),
                .spawnMake C_DEPS_MAKEFILE,
                .setCwd st0.cwd,
                .ccInclude (pathJoin o C_DEPS_DIR ++ "/inst/include/"),
                .ccFlag ("-L" ++ pathJoin o C_DEPS_DIR ++ "/inst/lib"),
                .printLn ("cargo:rustc-link-search="
                  ++ pathJoin o C_DEPS_DIR ++ "/inst/lib"),
                .printLn "cargo:rustc-cfg=perf_pt",
                .cpuid 0x7 0x0] ++
               (if ((env.cpuid_count 0x7 0x0).ebx &&& (1 <<< 25)) != 0 then
                 [Effect.printLn "cargo:rustc-cfg=perf_pt_test"] else []) ++
               [.printLn "cargo:rustc-link-lib=static=xdc",
                .printLn "cargo:rustc-link-lib=static=capstone"]), ?_⟩
            simp [runTrace, main_backend_eq env st0 o r hout hgate hp hmk hs]
    · refine ⟨(mcdSt env st0).trace, ?_⟩
      simp [runTrace, main_gateFalse_eq env st0 o hout (by simpa using hgate)]

/-- C9 amended: the compilation unit is created empty before workspace
provisioning, but the default utility include path `src/util` is added only
after the platform gate (and, when taken, the backend steps), immediately
before the final compile and the rebuild-trigger registration: every
trace of every non-panicking run ends with exactly those three effects. -/
theorem src_util_include_after_gate (env : BuildEnv) (st0 : St)
    (h : runPanicked env st0 = false) :
    ∃ pre, runTrace env st0 = pre ++
      [.ccInclude "src/util", .ccCompile "hwtracer_c",
       .rerunExcept rerun_patterns] :=
  run_trace_tail env st0 h

/-- Witness for C9 amended: in the concrete non-backend run the trace ends
with the `src/util` include, the compile, and the rebuild-trigger
registration. -/
theorem src_util_include_after_gate_witness :
    runPanicked envOtherTarget st0A = false ∧
    runTrace envOtherTarget st0A =
      [.createDir "/out/c_deps",
       .symlink "/repo/c_deps.mk" "/out/c_deps/c_deps.mk"] ++
      [.ccInclude "src/util", .ccCompile "hwtracer_c",
       .rerunExcept rerun_patterns] := by
  have h : runPanicked envOtherTarget st0A = false := by decide
  obtain ⟨pre, hpre⟩ := src_util_include_after_gate envOtherTarget st0A h
  refine ⟨h, ?_⟩
  have ht : runTrace envOtherTarget st0A =
      [.createDir "/out/c_deps",
       .symlink "/repo/c_deps.mk" "/out/c_deps/c_deps.mk",
       .ccInclude "src/util", .ccCompile "hwtracer_c",
       .rerunExcept rerun_patterns] := by decide
  have hcancel : pre ++ [Effect.ccInclude "src/util",
      Effect.ccCompile "hwtracer_c", Effect.rerunExcept rerun_patterns] =
      [Effect.createDir "/out/c_deps",
       Effect.symlink "/repo/c_deps.mk" "/out/c_deps/c_deps.mk"] ++
      [Effect.ccInclude "src/util", Effect.ccCompile "hwtracer_c",
       Effect.rerunExcept rerun_patterns] := by
    rw [← hpre, ht]; rfl
  rw [hpre, List.append_cancel_right hcancel]

end Hwtracer

namespace Hwtracer

/-- Counterexample to C2 as stated: the run does register exactly the six
fixed patterns, but under the semantics of `rerun_except` a file matching
one of those patterns (here `README.md`, matched exactly by the pattern
`README.md`) is excluded from the rebuild triggers, so its modification does
NOT invalidate the cached build, while the non-matching `src/lib.rs` does
trigger. -/
theorem rerun_patterns_are_exceptions :
    (runTrace envOtherTarget st0A).count (.rerunExcept rerun_patterns) = 1 ∧
    globMatch "README.md" "README.md" = true ∧
    rerun_except_triggers rerun_patterns ["README.md", "src/lib.rs"]
      = ["src/lib.rs"] := by
  decide

end Hwtracer

namespace Hwtracer

/-- C2 amended: at the end of every non-panicking run exactly the six fixed
patterns (README.md, deny.toml, LICENSE-*, COPYRIGHT, bors.toml,
.buildbot.sh) are passed to the rebuild-trigger registration, as exceptions:
a project file matching one of the patterns never appears among the rebuild
triggers, while every project file matching none of them does; modification
of the listed files therefore does not invalidate a cached build. -/
theorem rerun_except_registration (env : BuildEnv) (st0 : St)
    (h : runPanicked env st0 = false) :
    (∃ pre, runTrace env st0 = pre ++ [.rerunExcept rerun_patterns]) ∧
    (∀ f files, rerun_patterns.any (fun p => globMatch p f) = true →
      f ∉ rerun_except_triggers rerun_patterns files) ∧
    (∀ f files, f ∈ files →
      rerun_patterns.any (fun p => globMatch p f) = false →
      f ∈ rerun_except_triggers rerun_patterns files) := by
  refine ⟨?_, ?_, ?_⟩
  · obtain ⟨pre, hpre⟩ := run_trace_tail env st0 h
    refine ⟨pre ++ [.ccInclude "src/util", .ccCompile "hwtracer_c"], ?_⟩
    rw [hpre]
    simp
  · intro f files hmatch hmem
    simp only [rerun_except_triggers, List.mem_filter] at hmem
    rw [hmatch] at hmem
    simp at hmem
  · intro f files hmem hmatch
    simp only [rerun_except_triggers, List.mem_filter]
    rw [hmatch]
    simp [hmem]

/-- Witness for C2 amended: the concrete non-backend run registers the six
patterns last, and `README.md` (which matches the first pattern) is not a
rebuild trigger while `src/lib.rs` is. -/
theorem rerun_except_registration_witness :
    runTrace envOtherTarget st0A =
      [.createDir "/out/c_deps",
       .symlink "/repo/c_deps.mk" "/out/c_deps/c_deps.mk",
       .ccInclude "src/util", .ccCompile "hwtracer_c"] ++
      [.rerunExcept rerun_patterns] ∧
    "README.md" ∉ rerun_except_triggers rerun_patterns
      ["README.md", "src/lib.rs"] ∧
    "src/lib.rs" ∈ rerun_except_triggers rerun_patterns
      ["README.md", "src/lib.rs"] := by
  obtain ⟨-, h2, h3⟩ :=
    rerun_except_registration envOtherTarget st0A (by decide)
  exact ⟨by decide,
    h2 "README.md" ["README.md", "src/lib.rs"] (by decide),
    h3 "src/lib.rs" ["README.md", "src/lib.rs"] (by decide) (by decide)⟩

end Hwtracer
